import Mathlib

/-!
# Coarse alignment of point clouds: template registry, selection and loading

A shallow embedding of `Coarse_Alignment_Main.cpp`: the classes `FeatureCloud`
and `TemplateAlignment`, the template-matching block of `main`, and `main` itself
with its kd-tree clustering block.

The Point Cloud Library (normal estimation, FPFH descriptors, SAC-IA, PCD
files, voxel grid, radius search, index extraction) is not part of the program;
its operations are the fields of the structures `Pcl` and `PclCluster`, over which
every definition is parametric.
-/

set_option autoImplicit false
set_option exponentiation.threshold 5000

namespace CoarseAlignment

/-! ## Floating-point values -/

/-- A value of type `float` or `double`: not-a-number, the two infinities, or the
finite value `k * 2^(-1074)`. Every finite IEEE-754 single and double precision
number is an integer multiple of `2^(-1074)`, so `k` determines it exactly (the
two zeros are both `fin 0`; they compare equal in C++). -/
inductive Flt where
  | nan
  | negInf
  | fin (k : Int)
  | posInf
deriving DecidableEq, Repr

namespace Flt

/-- The C++ comparison `a < b` on floating-point values: false whenever an operand
is not-a-number. -/
def lt : Flt → Flt → Bool
  | nan, _ => false
  | negInf, nan => false
  | negInf, negInf => false
  | negInf, fin _ => true
  | negInf, posInf => true
  | fin _, nan => false
  | fin _, negInf => false
  | fin a, fin b => decide (a < b)
  | fin _, posInf => true
  | posInf, _ => false

/-- Bisection for the binary logarithm: adds to `lo` every power `2^i`, `i < j`
taken from the largest down, that keeps `2^lo ≤ n`. -/
def log2Search : Nat → Nat → Nat → Nat
  | 0, lo, _ => lo
  | j + 1, lo, n =>
    if 2 ^ (lo + 2 ^ j) ≤ n then log2Search j (lo + 2 ^ j) n else log2Search j lo n

/-- Number of binary digits of `n` (0 for 0), exact below `2^4096`, which is far
above the overflow threshold of both precisions. -/
def bits (n : Nat) : Nat := if n = 0 then 0 else log2Search 12 0 n + 1

/-- Nearest integer to `a / d`, ties to the even integer (`d > 0`). -/
def roundHalfEven (a d : Nat) : Nat :=
  let q := a / d
  let r := a % d
  if 2 * r < d then q else if d < 2 * r then q + 1 else if q % 2 = 0 then q else q + 1

/-- Round the exact value `(n / d) * 2^(-1074)` to the nearest single precision
number (24 significant bits, least spacing `2^(-149)`, ties to even; overflow
gives an infinity). -/
def round32 (n : Int) (d : Nat) : Flt :=
  let a := n.natAbs
  let s := max (bits (a / d) - 24) 925
  let v := roundHalfEven a (d * 2 ^ s) * 2 ^ s
  if 2 ^ 1202 ≤ v then (if n < 0 then negInf else posInf)
  else fin (if n < 0 then -(v : Int) else (v : Int))

/-- The `float` literal written as the decimal fraction `num / den`. -/
def lit32 (num den : Nat) : Flt := round32 ((num * 2 ^ 1074 : Nat) : Int) den

/-- The conversion `(float) x` of a `double`. -/
def toFloat : Flt → Flt
  | fin k => round32 k 1
  | x => x

/-- The `float` product `a * b`. -/
def mul32 : Flt → Flt → Flt
  | fin a, fin b => round32 (a * b) (2 ^ 1074)
  | nan, _ => nan
  | _, nan => nan
  | fin a, posInf => if a = 0 then nan else if a < 0 then negInf else posInf
  | fin a, negInf => if a = 0 then nan else if a < 0 then posInf else negInf
  | posInf, fin b => if b = 0 then nan else if b < 0 then negInf else posInf
  | negInf, fin b => if b = 0 then nan else if b < 0 then posInf else negInf
  | posInf, posInf => posInf
  | negInf, negInf => posInf
  | posInf, negInf => negInf
  | negInf, posInf => negInf

end Flt

/-- The conversion `(int) i` of a `size_t` index to a 32-bit `int`. -/
def toInt (i : Nat) : Int := ((i : Int) + 2 ^ 31) % 2 ^ 32 - 2 ^ 31

/-- How a call ends: it returns a value, or it reads a vector element that does
not exist (`operator[]` with an index outside the vector, for which C++ defines
no behaviour). -/
inductive Outcome (α : Type) where
  | returned (a : α)
  | undefinedRead (index : Int) (size : Nat)
deriving DecidableEq, Repr

/-! ## FeatureCloud -/

/-- The members of `class FeatureCloud`. The three cloud pointers are null until
a cloud has been processed. -/
structure FeatureCloud (P N D T : Type) where
  xyz_ : Option (List P)
  normals_ : Option (List N)
  features_ : Option (List D)
  search_method_xyz_ : T
  normal_radius_ : Flt
  feature_radius_ : Flt
deriving DecidableEq, Repr

/-- The object `sac_ia_` of type `pcl::SampleConsensusInitialAlignment`: the
values stored by its setters, and `internal`, everything else the aligner keeps
between calls (final transformation, random source, search structures). -/
structure SacIA (P D H : Type) where
  min_sample_distance_ : Flt
  corr_dist_threshold_ : Flt
  max_iterations_ : Int
  target_ : Option (List P)
  target_features_ : Option (List D)
  input_ : Option (List P)
  source_features_ : Option (List D)
  internal : H
deriving DecidableEq, Repr

/-- The operations of the Point Cloud Library and of the file system that the
program calls. `P` points, `N` normals, `D` descriptors, `T` search objects,
`M` transformation matrices, `H` internal aligner state. -/
structure Pcl (P N D T M H : Type) where
  /-- The expression `new SearchMethod`. -/
  newSearch : T
  /-- The call `norm_est.compute` for an input cloud pointer, search object and radius:
  the normals, and the search object afterwards. -/
  normalEstimation : Option (List P) → T → Flt → List N × T
  /-- The call `fpfh_est.compute` for an input cloud, input normals, search object
  and radius. -/
  fpfhEstimation : Option (List P) → Option (List N) → T → Flt → List D × T
  /-- The call `pcl::io::loadPCDFile (file, cloud)`: the returned status (negative
  on failure) and the cloud afterwards. -/
  loadPCDFile : List Char → List P → Int × List P
  /-- The voxel grid filter for a leaf size. -/
  voxelGrid : List P → Flt → List P
  /-- The call `pcl::transformPointCloud` for an input cloud pointer and a matrix. -/
  transformPointCloud : Option (List P) → M → List P
  /-- The content of a text file, when it can be opened. -/
  openFile : List Char → Option (List Char)
  /-- A default-constructed aligner. -/
  sacDefault : SacIA P D H
  /-- The call `sac_ia_.align (registration_output)`: the aligner's internal state
  afterwards. -/
  sacCompute : SacIA P D H → H
  /-- The call `getFitnessScore (max_range)`, a `double`. -/
  getFitnessScore : SacIA P D H → Flt → Flt
  /-- The call `getFinalTransformation ()`. -/
  getFinalTransformation : SacIA P D H → M

section Model

variable {P N D T M H : Type}

namespace FeatureCloud

/-- The constructor `FeatureCloud ()`. -/
def new (lib : Pcl P N D T M H) : FeatureCloud P N D T :=
  { xyz_ := none, normals_ := none, features_ := none,
    search_method_xyz_ := lib.newSearch,
    normal_radius_ := Flt.lit32 2 100,
    feature_radius_ := Flt.lit32 2 100 }

/-- The method `computeSurfaceNormals`: a fresh normals cloud filled by the
estimator from `xyz_`. -/
def computeSurfaceNormals (lib : Pcl P N D T M H) (fc : FeatureCloud P N D T) :
    FeatureCloud P N D T :=
  let out := lib.normalEstimation fc.xyz_ fc.search_method_xyz_ fc.normal_radius_
  { fc with normals_ := some out.1, search_method_xyz_ := out.2 }

/-- The method `computeLocalFeatures`: a fresh descriptor cloud filled by the
estimator from `xyz_` and `normals_`. -/
def computeLocalFeatures (lib : Pcl P N D T M H) (fc : FeatureCloud P N D T) :
    FeatureCloud P N D T :=
  let out := lib.fpfhEstimation fc.xyz_ fc.normals_ fc.search_method_xyz_ fc.feature_radius_
  { fc with features_ := some out.1, search_method_xyz_ := out.2 }

/-- The method `processInput`. -/
def processInput (lib : Pcl P N D T M H) (fc : FeatureCloud P N D T) :
    FeatureCloud P N D T :=
  computeLocalFeatures lib (computeSurfaceNormals lib fc)

/-- The method `setInputCloud`. -/
def setInputCloud (lib : Pcl P N D T M H) (fc : FeatureCloud P N D T) (xyz : List P) :
    FeatureCloud P N D T :=
  processInput lib { fc with xyz_ := some xyz }

/-- The method `loadInputCloud`: the status returned by `loadPCDFile` is not
looked at. -/
def loadInputCloud (lib : Pcl P N D T M H) (fc : FeatureCloud P N D T)
    (pcd_file : List Char) : FeatureCloud P N D T :=
  let loaded := lib.loadPCDFile pcd_file []
  processInput lib { fc with xyz_ := some loaded.2 }

end FeatureCloud

/-! ## TemplateAlignment -/

/-- The struct `TemplateAlignment::Result`. -/
structure Result (M : Type) where
  fitness_score : Flt
  final_transformation : M
deriving DecidableEq, Repr

/-- The members of `class TemplateAlignment`. -/
structure TemplateAlignment (P N D T H : Type) where
  templates_ : List (FeatureCloud P N D T)
  target_ : FeatureCloud P N D T
  sac_ia_ : SacIA P D H
  min_sample_distance_ : Flt
  max_correspondence_distance_ : Flt
  nr_iterations_ : Int
deriving DecidableEq, Repr

namespace TemplateAlignment

/-- The constructor `TemplateAlignment ()`: the three parameters, then the three
setter calls on the default-constructed `sac_ia_` (a `float` argument converts
exactly where the setter takes a `double`). -/
def new (lib : Pcl P N D T M H) : TemplateAlignment P N D T H :=
  let min_sample_distance := Flt.lit32 5 100
  let max_correspondence_distance := Flt.mul32 (Flt.lit32 1 100) (Flt.lit32 1 100)
  let nr_iterations : Int := 500
  let s1 := { lib.sacDefault with min_sample_distance_ := min_sample_distance }
  let s2 := { s1 with corr_dist_threshold_ := max_correspondence_distance }
  let s3 := { s2 with max_iterations_ := nr_iterations }
  { templates_ := [], target_ := FeatureCloud.new lib, sac_ia_ := s3,
    min_sample_distance_ := min_sample_distance,
    max_correspondence_distance_ := max_correspondence_distance,
    nr_iterations_ := nr_iterations }

/-- The method `setTargetCloud`. -/
def setTargetCloud (ta : TemplateAlignment P N D T H) (target_cloud : FeatureCloud P N D T) :
    TemplateAlignment P N D T H :=
  let s1 := { ta.sac_ia_ with target_ := target_cloud.xyz_ }
  let s2 := { s1 with target_features_ := target_cloud.features_ }
  { ta with target_ := target_cloud, sac_ia_ := s2 }

/-- The method `addTemplateCloud`: `push_back` on `templates_`. -/
def addTemplateCloud (ta : TemplateAlignment P N D T H)
    (template_cloud : FeatureCloud P N D T) : TemplateAlignment P N D T H :=
  { ta with templates_ := ta.templates_ ++ [template_cloud] }

/-- The method `align`: the object afterwards and the two fields written to
`result`. -/
def align (lib : Pcl P N D T M H) (ta : TemplateAlignment P N D T H)
    (template_cloud : FeatureCloud P N D T) : TemplateAlignment P N D T H × Result M :=
  let s1 := { ta.sac_ia_ with input_ := template_cloud.xyz_ }
  let s2 := { s1 with source_features_ := template_cloud.features_ }
  let s3 := { s2 with internal := lib.sacCompute s2 }
  ({ ta with sac_ia_ := s3 },
   { fitness_score := Flt.toFloat (lib.getFitnessScore s3 ta.max_correspondence_distance_),
     final_transformation := lib.getFinalTransformation s3 })

/-- The loop of `alignAll` from index `i` on, over the templates not yet visited:
each pass runs `align` on `templates_[i]` and stores its output in `results[i]`. -/
def alignAllLoop (lib : Pcl P N D T M H) :
    List (FeatureCloud P N D T) → Nat → TemplateAlignment P N D T H → List (Result M) →
    TemplateAlignment P N D T H × List (Result M)
  | [], _, ta, results => (ta, results)
  | t :: rest, i, ta, results =>
    let out := align lib ta t
    alignAllLoop lib rest (i + 1) out.1 (results.set i out.2)

/-- The method `alignAll`: `results` resized to the number of templates (`init` is
the value of a new element), then the loop. -/
def alignAll (lib : Pcl P N D T M H) (init : Result M) (ta : TemplateAlignment P N D T H)
    (results : List (Result M)) : TemplateAlignment P N D T H × List (Result M) :=
  let n := ta.templates_.length
  let resized := results.take n ++ List.replicate (n - results.length) init
  alignAllLoop lib ta.templates_ 0 ta resized

/-- The selection loop of `findBestAlignment` from index `i` on, over the results
not yet visited, with the current `lowest_score` and `best_template`. -/
def bestLoop : List (Result M) → Nat → Flt → Int → Flt × Int
  | [], _, lowest_score, best_template => (lowest_score, best_template)
  | r :: rest, i, lowest_score, best_template =>
    if Flt.lt r.fitness_score lowest_score then bestLoop rest (i + 1) r.fitness_score (toInt i)
    else bestLoop rest (i + 1) lowest_score best_template

/-- The element access `results[best_template]`. -/
def readAt (results : List (Result M)) (best_template : Int) : Outcome (Result M) :=
  if 0 ≤ best_template then
    match results[best_template.toNat]? with
    | some r => Outcome.returned r
    | none => Outcome.undefinedRead best_template results.length
  else Outcome.undefinedRead best_template results.length

/-- The method `findBestAlignment`: the object afterwards, and the returned index
with the value written to `result`. -/
def findBestAlignment (lib : Pcl P N D T M H) (init : Result M)
    (ta : TemplateAlignment P N D T H) :
    TemplateAlignment P N D T H × Outcome (Int × Result M) :=
  let out := alignAll lib init ta []
  let results := out.2
  let best_template := (bestLoop results 0 Flt.posInf 0).2
  match readAt results best_template with
  | Outcome.returned r => (out.1, Outcome.returned (best_template, r))
  | Outcome.undefinedRead i n => (out.1, Outcome.undefinedRead i n)

/-- The object after `align` has been run on each template of `ts`, in list
order. -/
def afterAligns (lib : Pcl P N D T M H) (ta : TemplateAlignment P N D T H)
    (ts : List (FeatureCloud P N D T)) : TemplateAlignment P N D T H :=
  ts.foldl (fun a t => (align lib a t).1) ta

/-- A public method call on a `TemplateAlignment` object. -/
inductive Call (P N D T : Type) where
  | setTargetCloud (target_cloud : FeatureCloud P N D T)
  | addTemplateCloud (template_cloud : FeatureCloud P N D T)
  | align (template_cloud : FeatureCloud P N D T)
  | alignAll
  | findBestAlignment

/-- The object after one method call. -/
def afterCall (lib : Pcl P N D T M H) (init : Result M) (ta : TemplateAlignment P N D T H) :
    Call P N D T → TemplateAlignment P N D T H
  | Call.setTargetCloud c => setTargetCloud ta c
  | Call.addTemplateCloud c => addTemplateCloud ta c
  | Call.align c => (align lib ta c).1
  | Call.alignAll => (alignAll lib init ta []).1
  | Call.findBestAlignment => (findBestAlignment lib init ta).1

/-- The object after a sequence of method calls. -/
def afterCalls (lib : Pcl P N D T M H) (init : Result M) (ta : TemplateAlignment P N D T H)
    (calls : List (Call P N D T)) : TemplateAlignment P N D T H :=
  calls.foldl (afterCall lib init) ta

end TemplateAlignment

/-! ## The template-matching block of `main` -/

/-- The line feed, delimiter of `std::getline`. -/
def newline : Char := Char.ofNat 10

/-- The character `#` that starts a comment line. -/
def hash : Char := Char.ofNat 35

/-- The state of a `std::ifstream`: the characters not read yet, and the state
bits `eofbit` and `failbit`. -/
structure IfStream where
  rest : List Char
  eofbit : Bool
  failbit : Bool
deriving DecidableEq, Repr

namespace IfStream

/-- The constructor `std::ifstream (name)`, given the content of the file when it
can be opened: a file that cannot be opened sets `failbit`. -/
def openStream : Option (List Char) → IfStream
  | some content => { rest := content, eofbit := false, failbit := false }
  | none => { rest := [], eofbit := false, failbit := true }

/-- The member `good ()`. -/
def good (s : IfStream) : Bool := !s.eofbit && !s.failbit

/-- The extraction of `std::getline`: the characters before the first line feed
and what follows it, or `none` in place of the latter when the end of the file
comes first. -/
def readLine : List Char → List Char × Option (List Char)
  | [] => ([], none)
  | c :: cs =>
    if c = newline then ([], some cs)
    else ((c :: (readLine cs).1), (readLine cs).2)

/-- The call `std::getline (stream, str)`: a stream that is not good only gets
`failbit` and leaves `str`; otherwise `str` is replaced by the extracted line, the
line feed is consumed, reaching the end of the file sets `eofbit`, and extracting
nothing at all sets `failbit`. -/
def getline (s : IfStream) (str : List Char) : IfStream × List Char :=
  if s.good then
    match readLine s.rest with
    | (line, some rest) => ({ s with rest := rest }, line)
    | (line, none) => ({ rest := [], eofbit := true, failbit := line.isEmpty }, line)
  else ({ s with failbit := true }, str)

end IfStream

/-- The loop `while (input_stream.good ())` that fills `object_templates`, run for
at most `fuel` passes (`none` when they do not suffice): the stream, the string
`pcd_filename` and the vector when the loop is left. -/
def loadTemplatesLoop (lib : Pcl P N D T M H) :
    Nat → IfStream → List Char → List (FeatureCloud P N D T) →
    Option (IfStream × List Char × List (FeatureCloud P N D T))
  | 0, _, _, _ => none
  | fuel + 1, input_stream, pcd_filename, object_templates =>
    if input_stream.good then
      let g := IfStream.getline input_stream pcd_filename
      match g.2 with
      | [] => loadTemplatesLoop lib fuel g.1 g.2 object_templates
      | c :: _ =>
        if c = hash then loadTemplatesLoop lib fuel g.1 g.2 object_templates
        else
          let template_cloud := FeatureCloud.loadInputCloud lib (FeatureCloud.new lib) g.2
          loadTemplatesLoop lib fuel g.1 g.2 (object_templates ++ [template_cloud])
    else some (input_stream, pcd_filename, object_templates)

/-- The template loading of `main` for the list file named by `argv[3]`: the
vector `object_templates` after the loop. -/
def loadTemplates (lib : Pcl P N D T M H) (list_file : List Char) :
    Option (List (FeatureCloud P N D T)) :=
  let input_stream := IfStream.openStream (lib.openFile list_file)
  (loadTemplatesLoop lib (input_stream.rest.length + 2) input_stream [] []).map
    (fun out => out.2.2)

/-- What the template-matching block has at its end: the selected index, the
alignment it prints, and the cloud it saves as `output.pcd`. -/
structure StageOutput (P M : Type) where
  best_index : Int
  best_alignment : Result M
  transformed_cloud : List P
deriving DecidableEq, Repr

/-- The block `if (do_template_match == 1)` of `main`, for `argv[2]` and
`argv[3]`. No status returned by a load is looked at. -/
def templateMatchStage (lib : Pcl P N D T M H) (init : Result M)
    (argv2 argv3 : List Char) : Option (Outcome (StageOutput P M)) :=
  match loadTemplates lib argv3 with
  | none => none
  | some object_templates =>
    let cloud := (lib.loadPCDFile argv2 []).2
    let tempCloud := lib.voxelGrid cloud (Flt.lit32 5 1)
    let target_cloud := FeatureCloud.setInputCloud lib (FeatureCloud.new lib) tempCloud
    let template_align :=
      object_templates.foldl TemplateAlignment.addTemplateCloud (TemplateAlignment.new lib)
    let template_align := TemplateAlignment.setTargetCloud template_align target_cloud
    match (TemplateAlignment.findBestAlignment lib init template_align).2 with
    | Outcome.undefinedRead i n => some (Outcome.undefinedRead i n)
    | Outcome.returned (best_index, best_alignment) =>
      if 0 ≤ best_index then
        match object_templates[best_index.toNat]? with
        | some best_template =>
          some (Outcome.returned
            { best_index := best_index, best_alignment := best_alignment,
              transformed_cloud := lib.transformPointCloud best_template.xyz_
                best_alignment.final_transformation })
        | none => some (Outcome.undefinedRead best_index object_templates.length)
      else some (Outcome.undefinedRead best_index object_templates.length)

/-! ## The template list file as the specification reads it -/

/-- The lines of a text: the runs of characters between line feeds. -/
def fileLines : List Char → List (List Char)
  | [] => [[]]
  | c :: cs =>
    if c = newline then [] :: fileLines cs
    else
      match fileLines cs with
      | [] => [[c]]
      | l :: ls => (c :: l) :: ls

/-- A line is kept when it is not blank and does not start with `#`. -/
def isTemplateLine : List Char → Bool
  | [] => false
  | c :: _ => !(c = hash)

/-- The lines of the template list file, in file order, without the blank lines
and the lines that start with `#`. -/
def specTemplatePaths (content : List Char) : List (List Char) :=
  (fileLines content).filter isTemplateLine

/-- The library `lib` with the status returned by `loadPCDFile` replaced by
`status`, the cloud it leaves being the same. -/
def withLoadStatus (lib : Pcl P N D T M H) (status : List Char → List P → Int) :
    Pcl P N D T M H :=
  { lib with loadPCDFile := fun file cloud => (status file cloud, (lib.loadPCDFile file cloud).2) }

/-- Two objects have the same set-up: the same configuration and the same target
in `sac_ia_`, and the same `max_correspondence_distance_`. -/
def SameSetup (a b : TemplateAlignment P N D T H) : Prop :=
  a.max_correspondence_distance_ = b.max_correspondence_distance_ ∧
  a.sac_ia_.min_sample_distance_ = b.sac_ia_.min_sample_distance_ ∧
  a.sac_ia_.corr_dist_threshold_ = b.sac_ia_.corr_dist_threshold_ ∧
  a.sac_ia_.max_iterations_ = b.sac_ia_.max_iterations_ ∧
  a.sac_ia_.target_ = b.sac_ia_.target_ ∧
  a.sac_ia_.target_features_ = b.sac_ia_.target_features_

end Model

/-! ## A concrete library, for evaluating the program on explicit inputs -/

/-- A point with integer coordinates, in units of `2^(-1074)`. -/
abbrev Pt := Int × Int × Int

/-- Squared distance of two points. -/
def sqDist (p q : Pt) : Int :=
  (p.1 - q.1) * (p.1 - q.1) + (p.2.1 - q.2.1) * (p.2.1 - q.2.1)
    + (p.2.2 - q.2.2) * (p.2.2 - q.2.2)

/-- The point `q` lies within `radius` of `p`. -/
def withinRadius (radius : Flt) (p q : Pt) : Bool :=
  match radius with
  | Flt.fin r => decide (0 ≤ r ∧ sqDist p q ≤ r * r)
  | Flt.posInf => true
  | _ => false

/-- Modelled from the spec: the normal estimator is library code; section 4.1 says
that it gathers, for each point, all points within the radius, and that with fewer
than 3 neighbours the normal is degenerate. The degenerate normal is `none`; a
defined normal is shown as the axis `(0, 0, 1)`. -/
def specNormals (cloud : Option (List Pt)) (radius : Flt) : List (Option Pt) :=
  (cloud.getD []).map (fun p =>
    if ((cloud.getD []).filter (withinRadius radius p)).length < 3 then none
    else some (0, 0, 1))

/-- One descriptor per point: the number of defined normals among the point's
neighbours' normals, counted over the whole cloud. -/
def demoFeatures (cloud : Option (List Pt)) (normals : Option (List (Option Pt))) : List Nat :=
  (cloud.getD []).map (fun _ => ((normals.getD []).filter Option.isSome).length)

/-- A cloud of one point. -/
def cloudA : List Pt := [(0, 0, 0)]

/-- A cloud of three points close to each other. -/
def cloudB : List Pt := [(0, 0, 0), (1, 0, 0), (0, 1, 0)]

/-- The point-cloud files that exist. -/
def demoClouds (file : List Char) : Option (List Pt) :=
  if file = "a.pcd".toList then some cloudA
  else if file = "b.pcd".toList then some cloudB
  else none

/-- The text files that exist: a template list of two paths, a comment line and a
blank line. -/
def demoTexts (file : List Char) : Option (List Char) :=
  if file = "templates.txt".toList then some "a.pcd\n# c.pcd\n\nb.pcd\n".toList
  else none

/-- A library instance. Loading a file that does not exist returns `-1` and leaves
the cloud as it is. The aligner's internal state counts the alignments computed so
far, standing for the position reached in its random source; the fitness score is
the size of the input cloud plus that count, as a whole number. -/
def demoLib : Pcl Pt (Option Pt) Nat Unit Int Nat where
  newSearch := ()
  normalEstimation := fun cloud _ radius => (specNormals cloud radius, ())
  fpfhEstimation := fun cloud normals _ _ => (demoFeatures cloud normals, ())
  loadPCDFile := fun file cloud =>
    match demoClouds file with
    | some points => (0, points)
    | none => (-1, cloud)
  voxelGrid := fun cloud _ => cloud
  transformPointCloud := fun cloud m => (cloud.getD []).map (fun p => (p.1 + m, p.2))
  openFile := demoTexts
  sacDefault :=
    { min_sample_distance_ := Flt.fin 0, corr_dist_threshold_ := Flt.fin ((100 * 2 ^ 1074 : Nat) : Int),
      max_iterations_ := 1000, target_ := none, target_features_ := none,
      input_ := none, source_features_ := none, internal := 0 }
  sacCompute := fun s => s.internal + 1
  getFitnessScore := fun s _ =>
    Flt.fin ((((s.input_.getD []).length + s.internal) * 2 ^ 1074 : Nat) : Int)
  getFinalTransformation := fun s => (s.internal : Int)

/-- The same library with an aligner whose computation does not read its internal
state. -/
def demoLibFresh : Pcl Pt (Option Pt) Nat Unit Int Nat :=
  { demoLib with sacCompute := fun _ => 0 }

/-- A value for a new element of a results vector. -/
def demoInit : Result Int := { fitness_score := Flt.fin 0, final_transformation := 0 }

/-- The feature cloud made from `cloudA`. -/
def featA : FeatureCloud Pt (Option Pt) Nat Unit :=
  FeatureCloud.setInputCloud demoLib (FeatureCloud.new demoLib) cloudA

/-- The feature cloud made from `cloudB`. -/
def featB : FeatureCloud Pt (Option Pt) Nat Unit :=
  FeatureCloud.setInputCloud demoLib (FeatureCloud.new demoLib) cloudB

/-- A new `TemplateAlignment` with target `featB` and the templates `ts`. -/
def demoAlignment (ts : List (FeatureCloud Pt (Option Pt) Nat Unit)) :
    TemplateAlignment Pt (Option Pt) Nat Unit Nat :=
  TemplateAlignment.setTargetCloud
    (ts.foldl TemplateAlignment.addTemplateCloud (TemplateAlignment.new demoLib)) featB

end CoarseAlignment


/-! ## The kd-tree clustering block of `main` -/

namespace CoarseAlignment

/-- The operations of the Point Cloud Library that the clustering block calls. `P`
points, `C` centroids. -/
structure PclCluster (P C : Type) where
  /-- The call `pcl::io::loadPCDFile (file, cloud)`: the returned status and the
  cloud afterwards. -/
  loadPCDFile : List Char → List P → Int × List P
  /-- The call `pcl::io::savePCDFile (file, cloud)`: the returned status, or `none`
  when the call throws an exception. -/
  savePCDFile : List Char → List P → Option Int
  /-- The call `kdtree.radiusSearch (searchPoint, radius, indices, distances)` on
  the tree of an input cloud: the index vector afterwards; the call returns its
  length. -/
  radiusSearch : List P → P → Flt → List Nat
  /-- The filter `pcl::ExtractIndices` with `setNegative (true)`, for an input cloud
  and an index vector. -/
  extractNegative : List P → List Nat → List P
  /-- The call `pcl::compute3DCentroid (cloud, centroid)`: the centroid
  afterwards. -/
  compute3DCentroid : List P → C

/-- The switches at the head of `main`. -/
structure Switches where
  compute_transmatrix : Int
  do_transformation : Int
  do_template_match : Int
  do_filter : Int
  do_keypoint_detect : Int
  do_plane_segmentation : Int
  do_smoothing : Int
  do_normal_estimation : Int
  do_sift_keypoint : Int
  do_kdtree_search : Int
  do_icp : Int
deriving DecidableEq, Repr

/-- The values the switches are compiled with. -/
def switches : Switches :=
  { compute_transmatrix := 0, do_transformation := 0, do_template_match := 0,
    do_filter := 0, do_keypoint_detect := 0, do_plane_segmentation := 0,
    do_smoothing := 0, do_normal_estimation := 0, do_sift_keypoint := 0,
    do_kdtree_search := 1, do_icp := 0 }

/-- What the clustering loop has written: the clouds saved as `result_pt_cloud.pcd`,
in order, the clouds saved as `afterfl_pt_cloud.pcd`, in order, and the lines of
`example.txt`, each the centroid it holds. -/
structure ClusterTrace (P C : Type) where
  result_clouds : List (List P)
  remaining_clouds : List (List P)
  lines : List C
deriving DecidableEq, Repr

/-- How a run ends: it returns a value, it reads an element that does not exist, or
an exception that nothing catches leaves it, `b` being what had been written by
then. -/
inductive Ending (α β : Type) where
  | returned (a : α)
  | undefinedRead (index : Int) (size : Nat)
  | uncaught (b : β)
deriving DecidableEq, Repr

section ClusterModel

variable {P C : Type}

/-- The name of the file that each pass saves its cluster to. -/
def resultFileName : List Char := "result_pt_cloud.pcd".toList

/-- The name of the file that each pass saves the remaining cloud to. -/
def remainingFileName : List Char := "afterfl_pt_cloud.pcd".toList

/-- The reads `after_removal->points[indices[i]]` for the indices in turn: `none`
when an index is outside the cloud. -/
def gather (cloud : List P) : List Nat → Option (List P)
  | [] => some []
  | i :: rest =>
    match cloud[i]?, gather cloud rest with
    | some p, some ps => some (p :: ps)
    | _, _ => none

/-- The loop `while (1)` of the clustering block, run for at most `fuel` passes
(`none` when they do not suffice), from the cloud `after_removal` and what has been
written so far. The two calls of `radiusSearch` in a pass have the same arguments
and give the same index vector, `found`; `is_open` is `myfile.is_open ()`. A pass
saves the cloud it has gathered, extracts, saves the cloud that remains, and then
writes the centroid line; a save that throws ends the run there. -/
def clusterLoop (lib : PclCluster P C) (is_open : Bool) :
    Nat → List P → ClusterTrace P C →
    Option (Ending (ClusterTrace P C) (ClusterTrace P C))
  | 0, _, _ => none
  | _ + 1, [], written => some (Ending.returned written)
  | fuel + 1, searchPoint :: others, written =>
    let after_removal := searchPoint :: others
    let radius := Flt.lit32 25 1
    let found := lib.radiusSearch after_removal searchPoint radius
    let point_indx := if 0 < found.length then found else []
    match gather after_removal point_indx with
    | none =>
      some (Ending.undefinedRead
        (((point_indx.find? (fun i => decide (after_removal.length ≤ i))).getD 0 : Nat) : Int)
        after_removal.length)
    | some result_cloud =>
      match lib.savePCDFile resultFileName result_cloud with
      | none => some (Ending.uncaught written)
      | some _ =>
        let temp_pcd := lib.extractNegative after_removal point_indx
        match lib.savePCDFile remainingFileName temp_pcd with
        | none =>
          some (Ending.uncaught
            { written with result_clouds := written.result_clouds ++ [result_cloud] })
        | some _ =>
          let centroid := lib.compute3DCentroid result_cloud
          clusterLoop lib is_open fuel temp_pcd
            { result_clouds := written.result_clouds ++ [result_cloud],
              remaining_clouds := written.remaining_clouds ++ [temp_pcd],
              lines := if is_open then written.lines ++ [centroid] else written.lines }

/-- The block `if (do_kdtree_search == 1)` of `main`, for the cloud `orig_pcd` as
the earlier load left it and `argv[3]`. -/
def kdtreeStage (lib : PclCluster P C) (is_open : Bool) (orig_pcd : List P)
    (argv3 : List Char) : Option (Ending (ClusterTrace P C) (ClusterTrace P C)) :=
  let after_removal := (lib.loadPCDFile argv3 orig_pcd).2
  clusterLoop lib is_open (after_removal.length + 1) after_removal
    { result_clouds := [], remaining_clouds := [], lines := [] }

/-- What a run of `main` gives: the value returned, the files passed to
`loadPCDFile`, in order, and what the clustering block wrote. -/
structure MainOutput (P C : Type) where
  status : Int
  loaded_files : List (List Char)
  clustering : Option (ClusterTrace P C)
deriving DecidableEq, Repr

/-- The function `main` with the compiled switches, for the arguments `argv`
(`argc` is their number): the argument check, the load of `argv[4]`, and the
clustering block. The blocks of the ten switches that are 0 are not run and are
left out. Reading `argv[i]` for `i` not below `argc` gives no file name (the null
pointer at `argc`, nothing defined beyond). -/
def mainProgram (lib : PclCluster P C) (is_open : Bool) (argv : List (List Char)) :
    Option (Ending (MainOutput P C) (ClusterTrace P C)) :=
  let argc := argv.length
  if argc < 3 then
    some (Ending.returned { status := -1, loaded_files := [], clustering := none })
  else
    match argv[4]? with
    | none => some (Ending.undefinedRead 4 argc)
    | some file4 =>
      let orig_pcd := (lib.loadPCDFile file4 []).2
      if switches.do_kdtree_search = 1 then
        match argv[3]? with
        | none => some (Ending.undefinedRead 3 argc)
        | some file3 =>
          match kdtreeStage lib is_open orig_pcd file3 with
          | none => none
          | some (Ending.undefinedRead i n) => some (Ending.undefinedRead i n)
          | some (Ending.uncaught written) => some (Ending.uncaught written)
          | some (Ending.returned written) =>
            some (Ending.returned
              { status := 0, loaded_files := [file4, file3], clustering := some written })
      else
        some (Ending.returned { status := 0, loaded_files := [file4], clustering := none })

/-! ### The clusters as the claims describe them -/

/-- The positions, counted from `k`, of the points of a cloud that satisfy `f`, in
increasing order. -/
def indicesFrom (f : P → Bool) : Nat → List P → List Nat
  | _, [] => []
  | k, p :: ps => if f p then k :: indicesFrom f (k + 1) ps else indicesFrom f (k + 1) ps

/-- The points of a cloud whose position, counted from `k`, is not in `idx`, in
cloud order. -/
def dropIndicesFrom (idx : List Nat) : Nat → List P → List P
  | _, [] => []
  | k, p :: ps =>
    if k ∈ idx then dropIndicesFrom idx (k + 1) ps else p :: dropIndicesFrom idx (k + 1) ps

/-- What the library operations are taken to do, `near q p` standing for "`p` lies
within radius 25 of `q`": the radius search returns, in some order, the positions
of exactly the points of the cloud within the radius of the query, and the negative
extraction keeps, in order, exactly the points whose position is not in the index
vector. -/
structure ClusterLaws (lib : PclCluster P C) (near : P → P → Bool) : Prop where
  search_perm : ∀ (cloud : List P) (q : P),
    (lib.radiusSearch cloud q (Flt.lit32 25 1)).Perm (indicesFrom (near q) 0 cloud)
  extract_eq : ∀ (cloud : List P) (idx : List Nat),
    lib.extractNegative cloud idx = dropIndicesFrom idx 0 cloud

/-- The library `lib` with a writer that throws for a cloud without points and
saves every other cloud. -/
def withStrictWriter (lib : PclCluster P C) : PclCluster P C :=
  { lib with savePCDFile := fun _ cloud => if cloud.isEmpty then none else some 0 }

end ClusterModel

/-- A cloud of three points, the second of them far from the other two. -/
def cloudC : List Pt :=
  [(0, 0, 0), (((100 * 2 ^ 1074 : Nat) : Int), 0, 0), (((1 * 2 ^ 1074 : Nat) : Int), 0, 0)]

/-- A library instance for the clustering block, on points with integer
coordinates: the file `c.pcd` holds `cloudC`, the search lists the positions within
the radius from the last to the first, and the centroid is shown as the sum of the
points with their number. -/
def demoCluster : PclCluster Pt (Pt × Nat) where
  loadPCDFile := fun file cloud =>
    if file = "c.pcd".toList then (0, cloudC)
    else
      match demoClouds file with
      | some points => (0, points)
      | none => (-1, cloud)
  savePCDFile := fun _ _ => some 0
  radiusSearch := fun cloud q radius => (indicesFrom (withinRadius radius q) 0 cloud).reverse
  extractNegative := fun cloud idx => dropIndicesFrom idx 0 cloud
  compute3DCentroid := fun cloud =>
    (cloud.foldl (fun s p => (s.1 + p.1, s.2.1 + p.2.1, s.2.2 + p.2.2)) (0, 0, 0), cloud.length)

/-- Equality of what the loop has written, for the points and centroids of
`demoCluster`, is decidable. -/
instance demoTraceDecEq : DecidableEq (ClusterTrace Pt (Pt × Nat)) := inferInstance

/-- A point as a PCD file holds it: three `float` coordinates, each of which can be
not-a-number or infinite. -/
abbrev FPt := Flt × Flt × Flt

/-- The point with integer coordinates that a point with three finite coordinates
is. -/
def FPt.toPt : FPt → Option Pt
  | (Flt.fin x, Flt.fin y, Flt.fin z) => some (x, y, z)
  | _ => none

/-- The point `p` lies within `radius` of `q`: both have finite coordinates and
their distance is at most the radius. A comparison with a distance that is not a
number is false. -/
def withinRadiusF (radius : Flt) (q p : FPt) : Bool :=
  match q.toPt, p.toPt with
  | some a, some b => withinRadius radius a b
  | _, _ => false

/-- The test `withinRadiusF` for radius 25. -/
def nanNear (q p : FPt) : Bool := withinRadiusF (Flt.lit32 25 1) q p

/-- A point whose first coordinate is not a number. -/
def nanPoint : FPt := (Flt.nan, Flt.fin 0, Flt.fin 0)

/-- A library instance on points with `float` coordinates: the file `nan.pcd` holds
the one point `nanPoint`, the search lists the positions within the radius, and the
writer saves every cloud. -/
def nanCluster : PclCluster FPt Nat where
  loadPCDFile := fun file cloud =>
    if file = "nan.pcd".toList then (0, [nanPoint]) else (-1, cloud)
  savePCDFile := fun _ _ => some 0
  radiusSearch := fun cloud q radius => indicesFrom (withinRadiusF radius q) 0 cloud
  extractNegative := fun cloud idx => dropIndicesFrom idx 0 cloud
  compute3DCentroid := fun cloud => cloud.length

end CoarseAlignment

/-! ## Properties -/

namespace CoarseAlignment

open TemplateAlignment

section Proofs

variable {P N D T M H : Type}

/-! ### The floating-point comparison -/

theorem Flt.lt_irrefl' (a : Flt) : Flt.lt a a = false := by
  cases a <;> simp [Flt.lt]

theorem Flt.lt_asymm' {a b : Flt} (h : Flt.lt a b = true) : Flt.lt b a = false := by
  cases a <;> cases b <;> simp [Flt.lt] at h ⊢
  omega

theorem Flt.lt_trans' {a b c : Flt} (h1 : Flt.lt a b = true) (h2 : Flt.lt b c = true) :
    Flt.lt a c = true := by
  cases a <;> cases b <;> cases c <;> simp [Flt.lt] at h1 h2 ⊢
  omega

theorem Flt.lt_of_lt_of_not_lt {a b c : Flt} (h1 : Flt.lt a b = true)
    (h2 : Flt.lt c b = false) (hc : c ≠ Flt.nan) : Flt.lt a c = true := by
  cases a <;> cases b <;> cases c <;> simp [Flt.lt] at h1 h2 hc ⊢
  omega

theorem Flt.not_lt_of_lt_of_not_lt {a b c : Flt} (h1 : Flt.lt a b = true)
    (h2 : Flt.lt c b = false) : Flt.lt c a = false := by
  cases a <;> cases b <;> cases c <;> simp [Flt.lt] at h1 h2 ⊢
  omega

theorem Flt.ne_nan_of_lt {a b : Flt} (h : Flt.lt a b = true) :
    a ≠ Flt.nan ∧ b ≠ Flt.nan := by
  cases a <;> cases b <;> simp [Flt.lt] at h ⊢

theorem Flt.round32_ne_nan (n : Int) (d : Nat) : Flt.round32 n d ≠ Flt.nan := by
  unfold Flt.round32
  simp only
  split_ifs <;> simp

theorem Flt.toFloat_ne_nan {x : Flt} (h : x ≠ Flt.nan) : Flt.toFloat x ≠ Flt.nan := by
  cases x with
  | nan => exact absurd rfl h
  | negInf => simp [Flt.toFloat]
  | posInf => simp [Flt.toFloat]
  | fin k => exact Flt.round32_ne_nan k 1

theorem toInt_of_lt {i : Nat} (h : i < 2 ^ 31) : toInt i = (i : Int) := by
  unfold toInt
  omega

/-! ### The loop of `alignAll` -/

theorem afterAligns_cons (lib : Pcl P N D T M H) (ta : TemplateAlignment P N D T H)
    (t : FeatureCloud P N D T) (ts : List (FeatureCloud P N D T)) :
    afterAligns lib ta (t :: ts) = afterAligns lib (align lib ta t).1 ts := rfl

theorem alignAllLoop_spec (lib : Pcl P N D T M H) (ts : List (FeatureCloud P N D T)) :
    ∀ (i : Nat) (ta : TemplateAlignment P N D T H) (results : List (Result M)),
      i + ts.length ≤ results.length →
      (alignAllLoop lib ts i ta results).1 = afterAligns lib ta ts ∧
      (alignAllLoop lib ts i ta results).2.length = results.length ∧
      (∀ k, k < i → (alignAllLoop lib ts i ta results).2[k]? = results[k]?) ∧
      (∀ j, j < ts.length → (alignAllLoop lib ts i ta results).2[i + j]? =
        (ts[j]?).map (fun t => (align lib (afterAligns lib ta (ts.take j)) t).2)) := by
  induction ts with
  | nil =>
    intro i ta results _
    simp [alignAllLoop, afterAligns]
  | cons t rest ih =>
    intro i ta results hlen
    have hlen' : i + 1 + rest.length ≤ (results.set i (align lib ta t).2).length := by
      simp only [List.length_set, List.length_cons] at hlen ⊢
      omega
    obtain ⟨h1, h2, h3, h4⟩ := ih (i + 1) (align lib ta t).1 (results.set i (align lib ta t).2) hlen'
    simp only [alignAllLoop]
    refine ⟨?_, ?_, ?_, ?_⟩
    · rw [h1, afterAligns_cons]
    · rw [h2, List.length_set]
    · intro k hk
      rw [h3 k (by omega), List.getElem?_set_ne (by omega)]
    · intro j hj
      cases j with
      | zero =>
        have hi : i < results.length := by
          simp only [List.length_cons] at hlen
          omega
        have h5 := h3 i (by omega)
        simp only [Nat.add_zero]
        rw [h5]
        simp [List.getElem?_set, hi, afterAligns]
      | succ j =>
        have := h4 j (by simpa using hj)
        rw [show i + (j + 1) = i + 1 + j by omega, this]
        simp [afterAligns_cons]

theorem alignAll_spec (lib : Pcl P N D T M H) (init : Result M)
    (ta : TemplateAlignment P N D T H) (results : List (Result M)) :
    (alignAll lib init ta results).1 = afterAligns lib ta ta.templates_ ∧
    (alignAll lib init ta results).2.length = ta.templates_.length ∧
    ∀ i, (alignAll lib init ta results).2[i]? =
      (ta.templates_[i]?).map
        (fun t => (align lib (afterAligns lib ta (ta.templates_.take i)) t).2) := by
  have hlen : (results.take ta.templates_.length ++
      List.replicate (ta.templates_.length - results.length) init).length
        = ta.templates_.length := by
    simp only [List.length_append, List.length_take, List.length_replicate]
    omega
  obtain ⟨h1, h2, _, h4⟩ := alignAllLoop_spec lib ta.templates_ 0 ta
    (results.take ta.templates_.length ++
      List.replicate (ta.templates_.length - results.length) init) (by omega)
  refine ⟨h1, by rw [← hlen]; exact h2, ?_⟩
  intro i
  by_cases hi : i < ta.templates_.length
  · have := h4 i hi
    rw [Nat.zero_add] at this
    exact this
  · have h5 : (alignAll lib init ta results).2.length = ta.templates_.length := by
      rw [← hlen]; exact h2
    rw [List.getElem?_eq_none (by omega), List.getElem?_eq_none (by omega)]
    rfl

/-! ### The selection loop of `findBestAlignment` -/

theorem bestLoop_spec (rs : List (Result M)) : ∀ (i : Nat) (lowest : Flt) (best : Int),
    lowest ≠ Flt.nan →
    (∀ r ∈ rs, Flt.lt r.fitness_score (bestLoop rs i lowest best).1 = false) ∧
    ((bestLoop rs i lowest best = (lowest, best) ∧
        ∀ r ∈ rs, Flt.lt r.fitness_score lowest = false) ∨
     ∃ j r, rs[j]? = some r ∧ bestLoop rs i lowest best = (r.fitness_score, toInt (i + j)) ∧
       Flt.lt r.fitness_score lowest = true ∧
       ∀ k rk, k < j → rs[k]? = some rk → rk.fitness_score ≠ Flt.nan →
         Flt.lt r.fitness_score rk.fitness_score = true) := by
  induction rs with
  | nil => intro i lowest best _; simp [bestLoop]
  | cons r rest ih =>
    intro i lowest best h
    by_cases hlt : Flt.lt r.fitness_score lowest = true
    · have hr := (Flt.ne_nan_of_lt hlt).1
      obtain ⟨hA, hB⟩ := ih (i + 1) r.fitness_score (toInt i) hr
      simp only [bestLoop, hlt, if_true]
      constructor
      · intro x hx
        rcases List.mem_cons.1 hx with rfl | hx
        · rcases hB with ⟨heq, _⟩ | ⟨j, rj, _, heq, hlt2, _⟩
          · rw [heq]; exact Flt.lt_irrefl' _
          · rw [heq]; exact Flt.lt_asymm' hlt2
        · exact hA x hx
      · right
        rcases hB with ⟨heq, _⟩ | ⟨j, rj, hj, heq, hlt2, hprev⟩
        · refine ⟨0, r, by simp, ?_, hlt, ?_⟩
          · simpa using heq
          · intro k rk hk; omega
        · refine ⟨j + 1, rj, by simpa using hj, ?_, Flt.lt_trans' hlt2 hlt, ?_⟩
          · rw [heq, Nat.add_right_comm, Nat.add_assoc]
          · intro k rk hk hget hnan
            cases k with
            | zero =>
              simp at hget; subst hget; exact hlt2
            | succ k => exact hprev k rk (by omega) (by simpa using hget) hnan
    · have hlt' : Flt.lt r.fitness_score lowest = false := by simpa using hlt
      obtain ⟨hA, hB⟩ := ih (i + 1) lowest best h
      simp only [bestLoop, hlt', Bool.false_eq_true, if_false]
      constructor
      · intro x hx
        rcases List.mem_cons.1 hx with rfl | hx
        · rcases hB with ⟨heq, _⟩ | ⟨j, rj, _, heq, hlt2, _⟩
          · rw [heq]; exact hlt'
          · rw [heq]; exact Flt.not_lt_of_lt_of_not_lt hlt2 hlt'
        · exact hA x hx
      · rcases hB with ⟨heq, hall⟩ | ⟨j, rj, hj, heq, hlt2, hprev⟩
        · left
          refine ⟨heq, ?_⟩
          intro x hx
          rcases List.mem_cons.1 hx with rfl | hx
          · exact hlt'
          · exact hall x hx
        · right
          refine ⟨j + 1, rj, by simpa using hj, ?_, hlt2, ?_⟩
          · rw [heq, Nat.add_right_comm, Nat.add_assoc]
          · intro k rk hk hget hnan
            cases k with
            | zero =>
              simp at hget; subst hget
              exact Flt.lt_of_lt_of_not_lt hlt2 hlt' hnan
            | succ k => exact hprev k rk (by omega) (by simpa using hget) hnan

theorem Flt.not_lt_of_not_lt_posInf {a : Flt} (h : Flt.lt a Flt.posInf = false) (b : Flt) :
    Flt.lt a b = false := by
  cases a <;> cases b <;> simp [Flt.lt] at h ⊢

theorem readAt_of_getElem? {rs : List (Result M)} {i : Nat} {r : Result M}
    (h : rs[i]? = some r) : readAt rs (i : Int) = Outcome.returned r := by
  simp [readAt, h]

/-- What the selection loop and the element read give on a non-empty results
vector whose indices fit an `int`. -/
theorem select_spec (rs : List (Result M)) (hne : rs ≠ []) (hlen : rs.length ≤ 2 ^ 31) :
    ∃ (i : Nat) (r : Result M),
      (bestLoop rs 0 Flt.posInf 0).2 = (i : Int) ∧ rs[i]? = some r ∧
      readAt rs (bestLoop rs 0 Flt.posInf 0).2 = Outcome.returned r ∧
      (∀ x ∈ rs, Flt.lt x.fitness_score r.fitness_score = false) ∧
      (∀ k rk, k < i → rs[k]? = some rk → rk.fitness_score ≠ Flt.nan →
        Flt.lt r.fitness_score rk.fitness_score = true) := by
  obtain ⟨hA, hB⟩ := bestLoop_spec rs 0 Flt.posInf 0 (by simp)
  rcases hB with ⟨heq, hall⟩ | ⟨j, r, hj, heq, _, hprev⟩
  · cases rs with
    | nil => exact absurd rfl hne
    | cons r0 rest =>
      refine ⟨0, r0, by rw [heq]; rfl, by simp, ?_, ?_, ?_⟩
      · rw [heq]; exact readAt_of_getElem? (by simp)
      · intro x hx
        exact Flt.not_lt_of_not_lt_posInf (hall x hx) _
      · intro k rk hk; omega
  · have hjlt : j < rs.length := by
      by_contra hcon
      rw [List.getElem?_eq_none (by omega)] at hj
      exact absurd hj (by simp)
    have hto : toInt (0 + j) = (j : Int) := by
      rw [Nat.zero_add]; exact toInt_of_lt (by omega)
    refine ⟨j, r, by rw [heq, hto], hj, ?_, ?_, hprev⟩
    · rw [heq, hto]; exact readAt_of_getElem? hj
    · intro x hx
      have := hA x hx
      rw [heq] at this
      exact this

end Proofs

end CoarseAlignment

namespace CoarseAlignment

open TemplateAlignment

section Claims

variable {P N D T M H : Type}

/-! ### Template selection -/

/-- C1: for a non-empty registry (of at most `2^31` templates, so that every index
fits the `int` that is returned) `findBestAlignment` returns an index `i` within
the registry and outputs a result `r` that is the element `i` of the vector
produced by `alignAll`, unchanged, and no element of that vector has a fitness
score strictly lower than the score of `r`. -/
theorem findBestAlignment_returns_argmin (lib : Pcl P N D T M H) (init : Result M)
    (ta : TemplateAlignment P N D T H) (hne : ta.templates_ ≠ [])
    (hlen : ta.templates_.length ≤ 2 ^ 31) :
    ∃ (i : Nat) (r : Result M),
      (findBestAlignment lib init ta).2 = Outcome.returned ((i : Int), r) ∧
      i < ta.templates_.length ∧
      (alignAll lib init ta []).2[i]? = some r ∧
      ∀ x ∈ (alignAll lib init ta []).2,
        Flt.lt x.fitness_score r.fitness_score = false := by
  obtain ⟨_, hl, _⟩ := alignAll_spec lib init ta []
  have hne' : (alignAll lib init ta []).2 ≠ [] := by
    intro h
    rw [h] at hl
    exact hne (List.length_eq_zero.1 hl.symm)
  obtain ⟨i, r, hi, hget, hread, hmin, _⟩ :=
    select_spec (alignAll lib init ta []).2 hne' (by rw [hl]; exact hlen)
  refine ⟨i, r, ?_, ?_, hget, hmin⟩
  · rw [hi] at hread
    simp only [findBestAlignment, hi, hread]
  · by_contra hcon
    rw [List.getElem?_eq_none (by omega)] at hget
    exact absurd hget (by simp)

/-- C1, on a registry of two templates. -/
theorem findBestAlignment_returns_argmin_witness :
    (demoAlignment [featA, featB]).templates_ ≠ [] ∧
    (demoAlignment [featA, featB]).templates_.length ≤ 2 ^ 31 ∧
    ∃ (i : Nat) (r : Result Int),
      (findBestAlignment demoLib demoInit (demoAlignment [featA, featB])).2
        = Outcome.returned ((i : Int), r) ∧
      i < (demoAlignment [featA, featB]).templates_.length ∧
      (alignAll demoLib demoInit (demoAlignment [featA, featB]) []).2[i]? = some r ∧
      ∀ x ∈ (alignAll demoLib demoInit (demoAlignment [featA, featB]) []).2,
        Flt.lt x.fitness_score r.fitness_score = false :=
  ⟨by decide, by decide,
    findBestAlignment_returns_argmin demoLib demoInit (demoAlignment [featA, featB])
      (by decide) (by decide)⟩

/-- C2: for a non-empty registry (of at most `2^31` templates) and an aligner whose
fitness score is a number, `findBestAlignment` returns the smallest index among the
templates that share the lowest fitness score: no result has a score strictly lower
than the returned one, every template at a lower index has a strictly greater score,
and so every template with the returned score stands at the returned index or
later. -/
theorem findBestAlignment_first_of_ties (lib : Pcl P N D T M H) (init : Result M)
    (ta : TemplateAlignment P N D T H) (hne : ta.templates_ ≠ [])
    (hlen : ta.templates_.length ≤ 2 ^ 31)
    (hscore : ∀ s cap, lib.getFitnessScore s cap ≠ Flt.nan) :
    ∃ (i : Nat) (r : Result M),
      (findBestAlignment lib init ta).2 = Outcome.returned ((i : Int), r) ∧
      (alignAll lib init ta []).2[i]? = some r ∧
      (∀ x ∈ (alignAll lib init ta []).2,
        Flt.lt x.fitness_score r.fitness_score = false) ∧
      (∀ j rj, j < i → (alignAll lib init ta []).2[j]? = some rj →
        Flt.lt r.fitness_score rj.fitness_score = true) ∧
      (∀ j rj, (alignAll lib init ta []).2[j]? = some rj →
        rj.fitness_score = r.fitness_score → i ≤ j) := by
  obtain ⟨_, hl, hres⟩ := alignAll_spec lib init ta []
  have hne' : (alignAll lib init ta []).2 ≠ [] := by
    intro h
    rw [h] at hl
    exact hne (List.length_eq_zero.1 hl.symm)
  obtain ⟨i, r, hi, hget, hread, hmin, hfirst⟩ :=
    select_spec (alignAll lib init ta []).2 hne' (by rw [hl]; exact hlen)
  have hearlier : ∀ j rj, j < i → (alignAll lib init ta []).2[j]? = some rj →
      Flt.lt r.fitness_score rj.fitness_score = true := by
    intro j rj hj hgetj
    refine hfirst j rj hj hgetj ?_
    rw [hres j] at hgetj
    cases htj : ta.templates_[j]? with
    | none => rw [htj] at hgetj; exact absurd hgetj (by simp)
    | some t =>
      rw [htj] at hgetj
      simp only [Option.map_some', Option.some.injEq] at hgetj
      rw [← hgetj]
      exact Flt.toFloat_ne_nan (hscore _ _)
  refine ⟨i, r, ?_, hget, hmin, hearlier, ?_⟩
  · rw [hi] at hread
    simp only [findBestAlignment, hi, hread]
  · intro j rj hgetj heq
    by_contra hcon
    have hlt := hearlier j rj (by omega) hgetj
    rw [heq, Flt.lt_irrefl'] at hlt
    exact absurd hlt (by simp)

/-- C2, on a registry whose second and third templates share the lowest score:
the index returned is 1. -/
theorem findBestAlignment_first_of_ties_witness :
    (findBestAlignment demoLibFresh demoInit (demoAlignment [featB, featA, featA])).2
      = Outcome.returned (1, { fitness_score := Flt.fin ((1 * 2 ^ 1074 : Nat) : Int),
                               final_transformation := 0 }) ∧
    ∃ (i : Nat) (r : Result Int),
      (findBestAlignment demoLibFresh demoInit (demoAlignment [featB, featA, featA])).2
        = Outcome.returned ((i : Int), r) ∧
      (alignAll demoLibFresh demoInit (demoAlignment [featB, featA, featA]) []).2[i]? = some r ∧
      (∀ x ∈ (alignAll demoLibFresh demoInit (demoAlignment [featB, featA, featA]) []).2,
        Flt.lt x.fitness_score r.fitness_score = false) ∧
      (∀ j rj, j < i →
        (alignAll demoLibFresh demoInit (demoAlignment [featB, featA, featA]) []).2[j]? = some rj →
        Flt.lt r.fitness_score rj.fitness_score = true) ∧
      (∀ j rj,
        (alignAll demoLibFresh demoInit (demoAlignment [featB, featA, featA]) []).2[j]? = some rj →
        rj.fitness_score = r.fitness_score → i ≤ j) :=
  ⟨by decide,
    findBestAlignment_first_of_ties demoLibFresh demoInit (demoAlignment [featB, featA, featA])
      (by decide) (by decide) (fun _ _ => by simp [demoLibFresh, demoLib])⟩

/-- C3: on an object to which no template was added, `findBestAlignment` does not
fail in a defined way: `alignAll` leaves the results vector empty, the selection
loop makes no pass, and the function reads `results[0]` of an empty vector. -/
theorem findBestAlignment_empty_registry (lib : Pcl P N D T M H) (init : Result M)
    (target_cloud : FeatureCloud P N D T) :
    (findBestAlignment lib init (TemplateAlignment.new lib)).2 = Outcome.undefinedRead 0 0 ∧
    (findBestAlignment lib init
      (setTargetCloud (TemplateAlignment.new lib) target_cloud)).2
      = Outcome.undefinedRead 0 0 := by
  constructor <;> rfl

/-- C4: after the calls `addTemplateCloud` for the clouds `cs` in turn, the registry
holds `cs` in that order behind what it held before (`cs` alone for a new object);
`alignAll` then returns a vector as long as the registry whose element `i` is the
output of `align` for template `i`, run on the object as the runs for the templates
before it have left it, and the object it leaves is the one after these runs, one
per template, in registry order. -/
theorem alignAll_in_registry_order (lib : Pcl P N D T M H) (init : Result M)
    (ta0 : TemplateAlignment P N D T H) (cs : List (FeatureCloud P N D T))
    (results : List (Result M)) :
    (cs.foldl addTemplateCloud (TemplateAlignment.new lib)).templates_ = cs ∧
    (cs.foldl addTemplateCloud ta0).templates_ = ta0.templates_ ++ cs ∧
    (alignAll lib init (cs.foldl addTemplateCloud ta0) results).2.length
      = (ta0.templates_ ++ cs).length ∧
    (∀ i, (alignAll lib init (cs.foldl addTemplateCloud ta0) results).2[i]? =
      ((ta0.templates_ ++ cs)[i]?).map (fun t =>
        (align lib (afterAligns lib (cs.foldl addTemplateCloud ta0)
          ((ta0.templates_ ++ cs).take i)) t).2)) ∧
    (alignAll lib init (cs.foldl addTemplateCloud ta0) results).1
      = afterAligns lib (cs.foldl addTemplateCloud ta0) (ta0.templates_ ++ cs) := by
  have hadd : ∀ (l : List (FeatureCloud P N D T)) (a : TemplateAlignment P N D T H),
      (l.foldl addTemplateCloud a).templates_ = a.templates_ ++ l := by
    intro l
    induction l with
    | nil => intro a; simp
    | cons c rest ih =>
      intro a
      rw [List.foldl_cons, ih]
      simp [addTemplateCloud]
  obtain ⟨h1, h2, h3⟩ := alignAll_spec lib init (cs.foldl addTemplateCloud ta0) results
  rw [hadd cs ta0] at h1 h2 h3
  refine ⟨?_, hadd cs ta0, h2, h3, h1⟩
  rw [hadd]
  rfl

end Claims

end CoarseAlignment

namespace CoarseAlignment

section TemplateList

variable {P N D T M H : Type}

/-! ### The template list file -/

theorem fileLines_ne_nil (cs : List Char) : fileLines cs ≠ [] := by
  cases cs with
  | nil => simp [fileLines]
  | cons c cs =>
    unfold fileLines
    split_ifs
    · simp
    · split <;> simp

theorem readLine_some {cs : List Char} : ∀ {rest : List Char},
    (IfStream.readLine cs).2 = some rest →
    fileLines cs = (IfStream.readLine cs).1 :: fileLines rest ∧ rest.length < cs.length := by
  induction cs with
  | nil => intro rest h; simp [IfStream.readLine] at h
  | cons c cs ih =>
    intro rest h
    by_cases hc : c = newline
    · simp only [IfStream.readLine, hc, if_true, Option.some.injEq] at h
      subst h
      simp [IfStream.readLine, fileLines, hc]
    · simp only [IfStream.readLine, hc, if_false] at h
      obtain ⟨h1, h2⟩ := ih h
      simp only [IfStream.readLine, fileLines, hc, if_false, h1, List.length_cons]
      exact ⟨trivial, by omega⟩

theorem readLine_none {cs : List Char} :
    (IfStream.readLine cs).2 = none → fileLines cs = [(IfStream.readLine cs).1] := by
  induction cs with
  | nil => intro _; simp [IfStream.readLine, fileLines]
  | cons c cs ih =>
    intro h
    by_cases hc : c = newline
    · simp [IfStream.readLine, hc] at h
    · simp only [IfStream.readLine, hc, if_false] at h
      simp [IfStream.readLine, fileLines, hc, ih h]

theorem loadTemplatesLoop_not_good (lib : Pcl P N D T M H) (fuel : Nat) (s : IfStream)
    (str : List Char) (acc : List (FeatureCloud P N D T)) (hg : s.good = false) :
    loadTemplatesLoop lib (fuel + 1) s str acc = some (s, str, acc) := by
  simp [loadTemplatesLoop, hg]

/-- One line of the list file, as the loop body treats it. -/
theorem map_filter_line (lib : Pcl P N D T M H) (line : List Char)
    (ls : List (List Char)) :
    ((line :: ls).filter isTemplateLine).map
        (FeatureCloud.loadInputCloud lib (FeatureCloud.new lib))
      = (match line with
          | [] => []
          | c :: _ => if c = hash then []
            else [FeatureCloud.loadInputCloud lib (FeatureCloud.new lib) line])
        ++ (ls.filter isTemplateLine).map
            (FeatureCloud.loadInputCloud lib (FeatureCloud.new lib)) := by
  cases line with
  | nil => simp [isTemplateLine]
  | cons c cs =>
    by_cases hc : c = hash <;> simp [isTemplateLine, hc]

theorem loadTemplatesLoop_spec (lib : Pcl P N D T M H) :
    ∀ (fuel : Nat) (s : IfStream) (str : List Char) (acc : List (FeatureCloud P N D T)),
      s.good = true → s.rest.length + 2 ≤ fuel →
      (loadTemplatesLoop lib fuel s str acc).map (fun out => out.2.2) =
        some (acc ++ (specTemplatePaths s.rest).map
          (FeatureCloud.loadInputCloud lib (FeatureCloud.new lib))) := by
  intro fuel
  induction fuel with
  | zero => intro s str acc _ h; omega
  | succ fuel ih =>
    intro s str acc hg hfuel
    cases hr : (IfStream.readLine s.rest).2 with
    | some rest =>
      obtain ⟨hl, hlen⟩ := readLine_some hr
      have hgl : IfStream.getline s str
          = ({ s with rest := rest }, (IfStream.readLine s.rest).1) := by
        unfold IfStream.getline
        rw [hg, if_pos rfl]
        have : IfStream.readLine s.rest = ((IfStream.readLine s.rest).1, some rest) := by
          rw [← hr]
        rw [this]
      have hg' : IfStream.good { s with rest := rest } = true := by
        simpa [IfStream.good] using hg
      have hrec := fun a => ih { s with rest := rest } (IfStream.readLine s.rest).1 a hg'
        (by simp only; omega)
      unfold loadTemplatesLoop
      rw [if_pos hg]
      simp only [hgl]
      unfold specTemplatePaths
      rw [hl, map_filter_line]
      cases hline : (IfStream.readLine s.rest).1 with
      | nil =>
        rw [hline] at hrec
        simpa [specTemplatePaths] using hrec acc
      | cons c cs =>
        rw [hline] at hrec
        by_cases hc : c = hash
        · simpa [specTemplatePaths, hc] using hrec acc
        · simpa [specTemplatePaths, hc] using
            hrec (acc ++ [FeatureCloud.loadInputCloud lib (FeatureCloud.new lib) (c :: cs)])
    | none =>
      have hl := readLine_none hr
      have hgl : IfStream.getline s str
          = ({ rest := [], eofbit := true,
               failbit := (IfStream.readLine s.rest).1.isEmpty },
             (IfStream.readLine s.rest).1) := by
        unfold IfStream.getline
        rw [hg, if_pos rfl]
        have : IfStream.readLine s.rest = ((IfStream.readLine s.rest).1, none) := by
          rw [← hr]
        rw [this]
      obtain ⟨fuel', rfl⟩ : ∃ f, fuel = f + 1 := ⟨fuel - 1, by omega⟩
      have hng : ∀ b, IfStream.good { rest := [], eofbit := true, failbit := b } = false := by
        intro b; simp [IfStream.good]
      unfold loadTemplatesLoop
      rw [if_pos hg]
      simp only [hgl]
      unfold specTemplatePaths
      rw [hl, map_filter_line]
      cases hline : (IfStream.readLine s.rest).1 with
      | nil => simp [loadTemplatesLoop_not_good, hng]
      | cons c cs =>
        by_cases hc : c = hash
        · simp [loadTemplatesLoop_not_good, hng, hc]
        · simp [loadTemplatesLoop_not_good, hng, hc]

theorem loadTemplates_spec (lib : Pcl P N D T M H) (list_file : List Char) :
    loadTemplates lib list_file =
      some ((match lib.openFile list_file with
              | some content => specTemplatePaths content
              | none => []).map
        (FeatureCloud.loadInputCloud lib (FeatureCloud.new lib))) := by
  unfold loadTemplates
  cases hopen : lib.openFile list_file with
  | some content =>
    have := loadTemplatesLoop_spec lib (content.length + 2)
      (IfStream.openStream (some content)) [] [] rfl (by simp [IfStream.openStream])
    simpa [IfStream.openStream] using this
  | none =>
    simp [IfStream.openStream, loadTemplatesLoop, IfStream.good]

/-- C5: the templates that the loading loop of `main` puts into `object_templates`
are the clouds loaded from the lines of the list file, in file order, without the
blank lines and the lines that start with `#` (none when the file cannot be
opened); a file of two paths, a comment line and a blank line gives exactly the
two templates, in file order. -/
theorem loadTemplates_eq_spec (lib : Pcl P N D T M H) (list_file : List Char) :
    loadTemplates lib list_file =
      some ((match lib.openFile list_file with
              | some content => specTemplatePaths content
              | none => []).map
        (FeatureCloud.loadInputCloud lib (FeatureCloud.new lib))) ∧
    specTemplatePaths "a.pcd\n# c.pcd\n\nb.pcd\n".toList = ["a.pcd".toList, "b.pcd".toList] ∧
    (loadTemplates demoLib "templates.txt".toList).map (fun ts => ts.map (fun t => t.xyz_))
      = some [some cloudA, some cloudB] :=
  ⟨loadTemplates_spec lib list_file, by decide, by decide⟩

end TemplateList

end CoarseAlignment

namespace CoarseAlignment

open TemplateAlignment

section FeatureClouds

variable {P N D T M H : Type}

/-! ### Feature cloud construction -/

/-- C6, as the program has it: whatever normal the estimator outputs for a point,
the degenerate normal of a point with fewer than 3 neighbours included, is stored
unchanged at the point's index of `normals_`, and the descriptors are then computed
from exactly those normals; `setInputCloud` and `loadInputCloud` have no other
outcome. -/
theorem processInput_keeps_every_normal (lib : Pcl P N D T M H)
    (fc : FeatureCloud P N D T) (xyz : List P) (pcd_file : List Char) (i : Nat) (n : N) :
    ((lib.normalEstimation (some xyz) fc.search_method_xyz_ fc.normal_radius_).1[i]? = some n →
      ∃ ns, (FeatureCloud.setInputCloud lib fc xyz).normals_ = some ns ∧ ns[i]? = some n ∧
        (FeatureCloud.setInputCloud lib fc xyz).features_ =
          some (lib.fpfhEstimation (some xyz) (some ns)
            (lib.normalEstimation (some xyz) fc.search_method_xyz_ fc.normal_radius_).2
            fc.feature_radius_).1) ∧
    ((lib.normalEstimation (some (lib.loadPCDFile pcd_file []).2) fc.search_method_xyz_
        fc.normal_radius_).1[i]? = some n →
      ∃ ns, (FeatureCloud.loadInputCloud lib fc pcd_file).normals_ = some ns ∧
        ns[i]? = some n ∧
        (FeatureCloud.loadInputCloud lib fc pcd_file).features_ =
          some (lib.fpfhEstimation (some (lib.loadPCDFile pcd_file []).2) (some ns)
            (lib.normalEstimation (some (lib.loadPCDFile pcd_file []).2)
              fc.search_method_xyz_ fc.normal_radius_).2
            fc.feature_radius_).1) := by
  constructor
  · intro h
    exact ⟨_, rfl, h, rfl⟩
  · intro h
    exact ⟨_, rfl, h, rfl⟩

/-- C6, on the cloud of one point, whose normal is degenerate. -/
theorem processInput_keeps_every_normal_witness :
    (demoLib.normalEstimation (some cloudA) (FeatureCloud.new demoLib).search_method_xyz_
        (FeatureCloud.new demoLib).normal_radius_).1[0]? = some none ∧
    ∃ ns, (FeatureCloud.setInputCloud demoLib (FeatureCloud.new demoLib) cloudA).normals_
        = some ns ∧ ns[0]? = some none ∧
      (FeatureCloud.setInputCloud demoLib (FeatureCloud.new demoLib) cloudA).features_ =
        some (demoLib.fpfhEstimation (some cloudA) (some ns)
          (demoLib.normalEstimation (some cloudA)
            (FeatureCloud.new demoLib).search_method_xyz_
            (FeatureCloud.new demoLib).normal_radius_).2
          (FeatureCloud.new demoLib).feature_radius_).1 :=
  ⟨by decide,
    (processInput_keeps_every_normal demoLib (FeatureCloud.new demoLib) cloudA [] 0 none).1
      (by decide)⟩

/-- C6 fails as stated: the only point of `cloudA` has 1 neighbour within the normal
radius, fewer than 3; construction stores the degenerate normal for it and goes on
to compute the descriptors. -/
theorem setInputCloud_degenerate_normal_not_surfaced :
    (cloudA.filter (withinRadius (FeatureCloud.new demoLib).normal_radius_ (0, 0, 0))).length = 1 ∧
    (FeatureCloud.setInputCloud demoLib (FeatureCloud.new demoLib) cloudA).normals_
      = some [none] ∧
    (FeatureCloud.setInputCloud demoLib (FeatureCloud.new demoLib) cloudA).features_
      = some [0] := by
  decide

/-- C8: after `setInputCloud` or `loadInputCloud`, whatever the object held before,
the stored points are the new cloud, the stored normals are the estimator's output
on the new cloud, and the stored descriptors are the estimator's output on the new
cloud and these normals; when each estimator gives one output per input point, the
three sequences have the same length. -/
theorem featureCloud_recomputed_in_full (lib : Pcl P N D T M H)
    (fc : FeatureCloud P N D T) (xyz : List P) (pcd_file : List Char)
    (hn : ∀ cloud t r, (lib.normalEstimation (some cloud) t r).1.length = cloud.length)
    (hf : ∀ cloud ns t r, (lib.fpfhEstimation (some cloud) ns t r).1.length = cloud.length) :
    (∃ ns ds,
      (FeatureCloud.setInputCloud lib fc xyz).xyz_ = some xyz ∧
      (FeatureCloud.setInputCloud lib fc xyz).normals_ = some ns ∧
      (FeatureCloud.setInputCloud lib fc xyz).features_ = some ds ∧
      ns = (lib.normalEstimation (some xyz) fc.search_method_xyz_ fc.normal_radius_).1 ∧
      ds = (lib.fpfhEstimation (some xyz) (some ns)
        (lib.normalEstimation (some xyz) fc.search_method_xyz_ fc.normal_radius_).2
        fc.feature_radius_).1 ∧
      ns.length = xyz.length ∧ ds.length = xyz.length) ∧
    (∃ ns ds,
      (FeatureCloud.loadInputCloud lib fc pcd_file).xyz_ = some (lib.loadPCDFile pcd_file []).2 ∧
      (FeatureCloud.loadInputCloud lib fc pcd_file).normals_ = some ns ∧
      (FeatureCloud.loadInputCloud lib fc pcd_file).features_ = some ds ∧
      ns = (lib.normalEstimation (some (lib.loadPCDFile pcd_file []).2)
        fc.search_method_xyz_ fc.normal_radius_).1 ∧
      ds = (lib.fpfhEstimation (some (lib.loadPCDFile pcd_file []).2) (some ns)
        (lib.normalEstimation (some (lib.loadPCDFile pcd_file []).2)
          fc.search_method_xyz_ fc.normal_radius_).2
        fc.feature_radius_).1 ∧
      ns.length = (lib.loadPCDFile pcd_file []).2.length ∧
      ds.length = (lib.loadPCDFile pcd_file []).2.length) := by
  constructor
  · exact ⟨_, _, rfl, rfl, rfl, rfl, rfl, hn _ _ _, hf _ _ _ _⟩
  · exact ⟨_, _, rfl, rfl, rfl, rfl, rfl, hn _ _ _, hf _ _ _ _⟩

/-- C8, on `featA`, which already holds the features of `cloudA`, set to `cloudB`
and loaded from `b.pcd`. -/
theorem featureCloud_recomputed_in_full_witness :
    FeatureCloud.setInputCloud demoLib featA cloudB = featB ∧
    (∃ ns ds,
      (FeatureCloud.setInputCloud demoLib featA cloudB).xyz_ = some cloudB ∧
      (FeatureCloud.setInputCloud demoLib featA cloudB).normals_ = some ns ∧
      (FeatureCloud.setInputCloud demoLib featA cloudB).features_ = some ds ∧
      ns = (demoLib.normalEstimation (some cloudB) featA.search_method_xyz_
        featA.normal_radius_).1 ∧
      ds = (demoLib.fpfhEstimation (some cloudB) (some ns)
        (demoLib.normalEstimation (some cloudB) featA.search_method_xyz_
          featA.normal_radius_).2
        featA.feature_radius_).1 ∧
      ns.length = cloudB.length ∧ ds.length = cloudB.length) :=
  ⟨by decide,
    (featureCloud_recomputed_in_full demoLib featA cloudB "b.pcd".toList
      (fun cloud _ r => by simp [demoLib, specNormals])
      (fun cloud ns _ _ => by simp [demoLib, demoFeatures])).1⟩

end FeatureClouds

end CoarseAlignment

namespace CoarseAlignment

open TemplateAlignment

section Loading

variable {P N D T M H : Type}

/-! ### Load statuses -/

theorem alignAllLoop_withLoadStatus (lib : Pcl P N D T M H)
    (status : List Char → List P → Int) (ts : List (FeatureCloud P N D T)) :
    ∀ (i : Nat) (ta : TemplateAlignment P N D T H) (results : List (Result M)),
      alignAllLoop (withLoadStatus lib status) ts i ta results
        = alignAllLoop lib ts i ta results := by
  induction ts with
  | nil => intro i ta results; rfl
  | cons t rest ih =>
    intro i ta results
    simp only [alignAllLoop]
    exact ih _ _ _

theorem findBestAlignment_withLoadStatus (lib : Pcl P N D T M H)
    (status : List Char → List P → Int) (init : Result M)
    (ta : TemplateAlignment P N D T H) :
    findBestAlignment (withLoadStatus lib status) init ta = findBestAlignment lib init ta := by
  simp only [findBestAlignment, alignAll, alignAllLoop_withLoadStatus]

theorem loadTemplatesLoop_withLoadStatus (lib : Pcl P N D T M H)
    (status : List Char → List P → Int) :
    ∀ (fuel : Nat) (s : IfStream) (str : List Char) (acc : List (FeatureCloud P N D T)),
      loadTemplatesLoop (withLoadStatus lib status) fuel s str acc
        = loadTemplatesLoop lib fuel s str acc := by
  intro fuel
  induction fuel with
  | zero => intro s str acc; rfl
  | succ fuel ih =>
    intro s str acc
    unfold loadTemplatesLoop
    simp only [ih]
    rfl

/-- C7, as the program has it: no status returned by the PCD loader is looked at.
With the statuses replaced by any others, `loadInputCloud` gives the same feature
cloud, the normals and descriptors computed from the cloud as the loader left it,
and the template-matching block of `main` gives the same outcome, which it always
reaches. -/
theorem load_status_is_ignored (lib : Pcl P N D T M H)
    (status : List Char → List P → Int) (init : Result M)
    (fc : FeatureCloud P N D T) (pcd_file argv2 argv3 : List Char) :
    FeatureCloud.loadInputCloud (withLoadStatus lib status) fc pcd_file
      = FeatureCloud.loadInputCloud lib fc pcd_file ∧
    FeatureCloud.loadInputCloud lib fc pcd_file
      = FeatureCloud.processInput lib { fc with xyz_ := some (lib.loadPCDFile pcd_file []).2 } ∧
    templateMatchStage (withLoadStatus lib status) init argv2 argv3
      = templateMatchStage lib init argv2 argv3 ∧
    templateMatchStage lib init argv2 argv3 ≠ none := by
  refine ⟨rfl, rfl, ?_, ?_⟩
  · have h1 : loadTemplates (withLoadStatus lib status) argv3 = loadTemplates lib argv3 := by
      simp only [loadTemplates, loadTemplatesLoop_withLoadStatus]
      rfl
    unfold templateMatchStage
    rw [h1]
    cases loadTemplates lib argv3 with
    | none => rfl
    | some ts =>
      simp only [findBestAlignment_withLoadStatus]
      rfl
  · have h := loadTemplates_spec lib argv3
    unfold templateMatchStage
    rw [h]
    simp only
    split
    · simp
    · split_ifs
      · split <;> simp
      · simp

/-- C7 fails as stated: the file `missing.pcd` does not exist and its load returns
`-1`; `loadInputCloud` still computes normals and descriptors, from the empty
cloud, and the template-matching block with this file as target still goes on to
template selection and returns a best template. -/
theorem failed_load_not_surfaced :
    (demoLib.loadPCDFile "missing.pcd".toList []).1 = -1 ∧
    FeatureCloud.loadInputCloud demoLib (FeatureCloud.new demoLib) "missing.pcd".toList
      = { FeatureCloud.new demoLib with
          xyz_ := some [], normals_ := some [], features_ := some [] } ∧
    templateMatchStage demoLib demoInit "missing.pcd".toList "templates.txt".toList
      = some (Outcome.returned
          { best_index := 0,
            best_alignment := { fitness_score := Flt.fin ((2 * 2 ^ 1074 : Nat) : Int),
                                final_transformation := 1 },
            transformed_cloud := [(1, 0, 0)] }) := by
  decide

end Loading

end CoarseAlignment

namespace CoarseAlignment

open TemplateAlignment

section Aligner

variable {P N D T M H : Type}

/-! ### The shared aligner -/

theorem SameSetup.refl (a : TemplateAlignment P N D T H) : SameSetup a a :=
  ⟨rfl, rfl, rfl, rfl, rfl, rfl⟩

theorem SameSetup.trans {a b c : TemplateAlignment P N D T H}
    (h1 : SameSetup a b) (h2 : SameSetup b c) : SameSetup a c := by
  obtain ⟨a1, a2, a3, a4, a5, a6⟩ := h1
  obtain ⟨b1, b2, b3, b4, b5, b6⟩ := h2
  exact ⟨a1.trans b1, a2.trans b2, a3.trans b3, a4.trans b4, a5.trans b5, a6.trans b6⟩

theorem align_sameSetup (lib : Pcl P N D T M H) (ta : TemplateAlignment P N D T H)
    (t : FeatureCloud P N D T) : SameSetup (align lib ta t).1 ta :=
  ⟨rfl, rfl, rfl, rfl, rfl, rfl⟩

theorem afterAligns_sameSetup (lib : Pcl P N D T M H) (ts : List (FeatureCloud P N D T)) :
    ∀ ta : TemplateAlignment P N D T H, SameSetup (afterAligns lib ta ts) ta := by
  induction ts with
  | nil => intro ta; exact SameSetup.refl ta
  | cons t rest ih =>
    intro ta
    rw [afterAligns_cons]
    exact SameSetup.trans (ih _) (align_sameSetup lib ta t)

theorem findBestAlignment_fst (lib : Pcl P N D T M H) (init : Result M)
    (ta : TemplateAlignment P N D T H) :
    (findBestAlignment lib init ta).1 = (alignAll lib init ta []).1 := by
  unfold findBestAlignment
  simp only
  split <;> rfl

theorem afterCall_config (lib : Pcl P N D T M H) (init : Result M)
    (ta : TemplateAlignment P N D T H) (c : Call P N D T) :
    (afterCall lib init ta c).max_correspondence_distance_ = ta.max_correspondence_distance_ ∧
    (afterCall lib init ta c).sac_ia_.min_sample_distance_ = ta.sac_ia_.min_sample_distance_ ∧
    (afterCall lib init ta c).sac_ia_.corr_dist_threshold_ = ta.sac_ia_.corr_dist_threshold_ ∧
    (afterCall lib init ta c).sac_ia_.max_iterations_ = ta.sac_ia_.max_iterations_ := by
  cases c with
  | setTargetCloud c => exact ⟨rfl, rfl, rfl, rfl⟩
  | addTemplateCloud c => exact ⟨rfl, rfl, rfl, rfl⟩
  | align c => exact ⟨rfl, rfl, rfl, rfl⟩
  | alignAll =>
    obtain ⟨h1, h2, h3, h4, _, _⟩ := afterAligns_sameSetup lib ta.templates_ ta
    simp only [afterCall, (alignAll_spec lib init ta []).1]
    exact ⟨h1, h2, h3, h4⟩
  | findBestAlignment =>
    obtain ⟨h1, h2, h3, h4, _, _⟩ := afterAligns_sameSetup lib ta.templates_ ta
    simp only [afterCall, findBestAlignment_fst, (alignAll_spec lib init ta []).1]
    exact ⟨h1, h2, h3, h4⟩

theorem afterCalls_config (lib : Pcl P N D T M H) (init : Result M)
    (calls : List (Call P N D T)) : ∀ ta : TemplateAlignment P N D T H,
    (afterCalls lib init ta calls).max_correspondence_distance_
      = ta.max_correspondence_distance_ ∧
    (afterCalls lib init ta calls).sac_ia_.min_sample_distance_
      = ta.sac_ia_.min_sample_distance_ ∧
    (afterCalls lib init ta calls).sac_ia_.corr_dist_threshold_
      = ta.sac_ia_.corr_dist_threshold_ ∧
    (afterCalls lib init ta calls).sac_ia_.max_iterations_ = ta.sac_ia_.max_iterations_ := by
  induction calls with
  | nil => intro ta; exact ⟨rfl, rfl, rfl, rfl⟩
  | cons c rest ih =>
    intro ta
    obtain ⟨h1, h2, h3, h4⟩ := ih (afterCall lib init ta c)
    obtain ⟨g1, g2, g3, g4⟩ := afterCall_config lib init ta c
    exact ⟨h1.trans g1, h2.trans g2, h3.trans g3, h4.trans g4⟩

/-- C9: a `TemplateAlignment` made by the default constructor, after any method
calls, has its aligner configured with minimum sample distance `0.05f`, maximum
correspondence distance `1e-4f` and 500 iterations; the product `0.01f * 0.01f`
that the constructor computes is the `float` nearest to `1e-4`; and the fitness
score that `align` reports is `getFitnessScore` called with that same maximum
correspondence distance, converted to `float`. -/
theorem default_configuration (lib : Pcl P N D T M H) (init : Result M)
    (calls : List (Call P N D T)) (t : FeatureCloud P N D T) :
    (afterCalls lib init (TemplateAlignment.new lib) calls).sac_ia_.min_sample_distance_
      = Flt.lit32 5 100 ∧
    (afterCalls lib init (TemplateAlignment.new lib) calls).sac_ia_.corr_dist_threshold_
      = Flt.lit32 1 10000 ∧
    (afterCalls lib init (TemplateAlignment.new lib) calls).sac_ia_.max_iterations_ = 500 ∧
    Flt.mul32 (Flt.lit32 1 100) (Flt.lit32 1 100) = Flt.lit32 1 10000 ∧
    Flt.lit32 1 10000 = Flt.fin ((13743895 * 2 ^ 1037 : Nat) : Int) ∧
    Flt.lit32 5 100 = Flt.fin ((13421773 * 2 ^ 1046 : Nat) : Int) ∧
    (align lib (afterCalls lib init (TemplateAlignment.new lib) calls) t).2.fitness_score
      = Flt.toFloat (lib.getFitnessScore
          (align lib (afterCalls lib init (TemplateAlignment.new lib) calls) t).1.sac_ia_
          (afterCalls lib init (TemplateAlignment.new lib) calls).sac_ia_.corr_dist_threshold_) := by
  obtain ⟨h1, h2, h3, h4⟩ := afterCalls_config lib init calls (TemplateAlignment.new lib)
  have hm : Flt.mul32 (Flt.lit32 1 100) (Flt.lit32 1 100) = Flt.lit32 1 10000 := by decide
  have hnew : (TemplateAlignment.new lib).sac_ia_.corr_dist_threshold_ = Flt.lit32 1 10000 := hm
  have hnew' : (TemplateAlignment.new lib).max_correspondence_distance_
      = Flt.lit32 1 10000 := hm
  refine ⟨h2.trans rfl, h3.trans hnew, h4.trans rfl, hm, by decide, by decide, ?_⟩
  rw [h3, hnew]
  show Flt.toFloat (lib.getFitnessScore _
    (afterCalls lib init (TemplateAlignment.new lib) calls).max_correspondence_distance_) = _
  rw [h1, hnew']
  rfl

theorem align_result_of_sameSetup (lib : Pcl P N D T M H)
    (hfresh : ∀ (s : SacIA P D H) (h : H), lib.sacCompute { s with internal := h }
      = lib.sacCompute s)
    {a b : TemplateAlignment P N D T H} (hab : SameSetup a b) (t : FeatureCloud P N D T) :
    (align lib a t).2 = (align lib b t).2 := by
  obtain ⟨h1, h2, h3, h4, h5, h6⟩ := hab
  have hs : ({ ({ a.sac_ia_ with input_ := t.xyz_ } : SacIA P D H) with
        source_features_ := t.features_ } : SacIA P D H)
      = { ({ ({ b.sac_ia_ with input_ := t.xyz_ } : SacIA P D H) with
            source_features_ := t.features_ } : SacIA P D H) with
          internal := a.sac_ia_.internal } := by
    cases ha : a.sac_ia_
    cases hb : b.sac_ia_
    simp only [ha, hb] at h2 h3 h4 h5 h6
    simp [h2, h3, h4, h5, h6]
  simp only [align]
  rw [hs, hfresh, h1]
  simp only [h2, h3, h4, h5, h6]

/-- C10, as the program has it: all runs of `align` go through the one object
`sac_ia_`, whose internal state passes from each run to the next. When the
aligner's computation does not read that carried-over state, the result that
`alignAll` stores for a template is the same in any two registries on the same
target and configuration, at whatever indices the template stands: it is the
result of `align` for that template on the object before any run. -/
theorem alignAll_result_independent (lib : Pcl P N D T M H) (init : Result M)
    (hfresh : ∀ (s : SacIA P D H) (h : H), lib.sacCompute { s with internal := h }
      = lib.sacCompute s)
    (ta : TemplateAlignment P N D T H) (ts1 ts2 : List (FeatureCloud P N D T))
    (results1 results2 : List (Result M)) (i j : Nat) (t : FeatureCloud P N D T)
    (h1 : ts1[i]? = some t) (h2 : ts2[j]? = some t) :
    (alignAll lib init { ta with templates_ := ts1 } results1).2[i]? = some (align lib ta t).2 ∧
    (alignAll lib init { ta with templates_ := ts2 } results2).2[j]? = some (align lib ta t).2 := by
  have key : ∀ (ts : List (FeatureCloud P N D T)) (results : List (Result M)) (k : Nat),
      ts[k]? = some t →
      (alignAll lib init { ta with templates_ := ts } results).2[k]? = some (align lib ta t).2 := by
    intro ts results k hk
    rw [(alignAll_spec lib init { ta with templates_ := ts } results).2.2 k]
    simp only [hk, Option.map_some', Option.some.injEq]
    apply align_result_of_sameSetup lib hfresh
    exact SameSetup.trans (afterAligns_sameSetup lib _ _) ⟨rfl, rfl, rfl, rfl, rfl, rfl⟩
  exact ⟨key ts1 results1 i h1, key ts2 results2 j h2⟩

/-- C10, for the template `featA` alone in one registry and second in another, with
an aligner that starts every computation afresh. -/
theorem alignAll_result_independent_witness :
    (alignAll demoLibFresh demoInit
        { demoAlignment [] with templates_ := [featA] } []).2[0]?
      = some (align demoLibFresh (demoAlignment []) featA).2 ∧
    (alignAll demoLibFresh demoInit
        { demoAlignment [] with templates_ := [featB, featA] } []).2[1]?
      = some (align demoLibFresh (demoAlignment []) featA).2 :=
  alignAll_result_independent demoLibFresh demoInit (fun _ _ => rfl) (demoAlignment [])
    [featA] [featB, featA] [] [] 0 1 featA (by decide) (by decide)

/-- C10 fails as stated: with the same target and configuration, the result that
`alignAll` stores for the template `featA` differs between the registry that holds
it alone and the registry that holds it after `featB`, because the run for `featB`
has advanced the state of the shared aligner. -/
theorem alignAll_result_depends_on_earlier_runs :
    (demoAlignment [featA]).templates_[0]? = some featA ∧
    (demoAlignment [featB, featA]).templates_[1]? = some featA ∧
    (alignAll demoLib demoInit (demoAlignment [featA]) []).2[0]?
      = some { fitness_score := Flt.fin ((2 * 2 ^ 1074 : Nat) : Int),
               final_transformation := 1 } ∧
    (alignAll demoLib demoInit (demoAlignment [featB, featA]) []).2[1]?
      = some { fitness_score := Flt.fin ((3 * 2 ^ 1074 : Nat) : Int),
               final_transformation := 2 } ∧
    (alignAll demoLib demoInit (demoAlignment [featA]) []).2[0]?
      ≠ (alignAll demoLib demoInit (demoAlignment [featB, featA]) []).2[1]? := by
  decide

end Aligner

end CoarseAlignment

namespace CoarseAlignment

section Clustering

variable {P C : Type}

/-! ### The clustering loop -/

end Clustering

end CoarseAlignment

namespace CoarseAlignment

section ClusterClaims

variable {P C : Type}

theorem nanCluster_laws : ClusterLaws nanCluster nanNear where
  search_perm := fun _ _ => List.Perm.refl _
  extract_eq := fun _ _ => rfl

theorem nanCluster_strict_laws : ClusterLaws (withStrictWriter nanCluster) nanNear where
  search_perm := fun _ _ => List.Perm.refl _
  extract_eq := fun _ _ => rfl

theorem nanCluster_pass (is_open : Bool) (fuel : Nat) (written : ClusterTrace FPt Nat) :
    clusterLoop nanCluster is_open (fuel + 1) [nanPoint] written
      = clusterLoop nanCluster is_open fuel [nanPoint]
          { result_clouds := written.result_clouds ++ [[]],
            remaining_clouds := written.remaining_clouds ++ [[nanPoint]],
            lines := if is_open then written.lines ++ [0] else written.lines } := by
  have hfound : nanCluster.radiusSearch [nanPoint] nanPoint (Flt.lit32 25 1) = [] := by decide
  have hext : nanCluster.extractNegative [nanPoint] [] = [nanPoint] := by decide
  have hs : ∀ file cloud, nanCluster.savePCDFile file cloud = some 0 := fun _ _ => rfl
  have hc : nanCluster.compute3DCentroid [] = 0 := rfl
  simp only [clusterLoop, hfound, List.length_nil, Nat.lt_irrefl, if_false, gather, hs, hext, hc]

/-- C12: the radius search and the extraction being as the laws say, a cloud whose
first point has a coordinate that is not a number is not brought to the break of
the loop: the point is not within the radius of itself, the search finds nothing
and the extraction removes nothing, so with a writer that saves the empty cluster
every further pass is the same and the loop is never left, and with a writer that
throws for a cloud without points the run is ended by the exception of the first
save. With such a writer a cloud of numeric points does not reach the break either:
the last pass saves the empty remaining cloud before the break is tested. -/
theorem clusterLoop_not_left_at_break :
    ClusterLaws nanCluster nanNear ∧
    ClusterLaws (withStrictWriter nanCluster) nanNear ∧
    nanNear nanPoint nanPoint = false ∧
    (∀ (is_open : Bool) (fuel : Nat) (written : ClusterTrace FPt Nat),
      clusterLoop nanCluster is_open fuel [nanPoint] written = none) ∧
    kdtreeStage nanCluster true [] "nan.pcd".toList = none ∧
    kdtreeStage (withStrictWriter nanCluster) true [] "nan.pcd".toList
      = some (Ending.uncaught { result_clouds := [], remaining_clouds := [], lines := [] }) ∧
    kdtreeStage (withStrictWriter demoCluster) true [] "c.pcd".toList
      = some (Ending.uncaught
          { result_clouds :=
              [[(((1 * 2 ^ 1074 : Nat) : Int), 0, 0), (0, 0, 0)],
               [(((100 * 2 ^ 1074 : Nat) : Int), 0, 0)]],
            remaining_clouds := [[(((100 * 2 ^ 1074 : Nat) : Int), 0, 0)]],
            lines := [((((1 * 2 ^ 1074 : Nat) : Int), 0, 0), 2)] }) := by
  refine ⟨nanCluster_laws, nanCluster_strict_laws, by decide, ?_, by decide, by decide,
    by decide⟩
  intro is_open fuel
  induction fuel with
  | zero => intro written; rfl
  | succ fuel ih =>
    intro written
    rw [nanCluster_pass]
    exact ih _

/-- C14: with fewer than 3 arguments `main` returns `-1` and loads nothing; with 3
or 4 arguments it passes the check and then reads `argv[4]`, an index that is not
below `argc`. -/
theorem mainProgram_argument_reads (lib : PclCluster P C) (is_open : Bool)
    (a b c d : List Char) :
    mainProgram lib is_open []
      = some (Ending.returned { status := -1, loaded_files := [], clustering := none }) ∧
    mainProgram lib is_open [a]
      = some (Ending.returned { status := -1, loaded_files := [], clustering := none }) ∧
    mainProgram lib is_open [a, b]
      = some (Ending.returned { status := -1, loaded_files := [], clustering := none }) ∧
    mainProgram lib is_open [a, b, c] = some (Ending.undefinedRead 4 3) ∧
    mainProgram lib is_open [a, b, c, d] = some (Ending.undefinedRead 4 4) :=
  ⟨rfl, rfl, rfl, rfl, rfl⟩

end ClusterClaims

end CoarseAlignment
